import Mathlib

/-!
Verification of the `on_demand` lazy, memoized value cell.

The source (`src/lib.rs`) provides `generate_on_demand_macro!($var: $Inner =
$default_value, $getter)`, which declares a local
`$var : RefCell<Option<$Inner>>` initialised with `$default_value` and three
accessor macros:

  * `on_demand_get_$var!()`:
      `let is_some = $var.borrow().is_some();
       if !is_some { *($var.borrow_mut()) = Some({$getter}); }
       Ref::map($var.borrow(), |v| v.as_ref().unwrap-or-unreachable)`
  * `on_demand_get_$var_mut!()`: the same with `RefMut::map($var.borrow_mut(), ...)`
    at the end;
  * `on_demand_into_$var!()`:
      `if let Some(data) = $var.into_inner() { data } else { {$getter} }`.

We embed `std::cell::RefCell` by an explicit dynamic borrow flag (unborrowed /
`n + 1` shared readers / one exclusive writer) next to the `Option` slot, with
`borrow`/`borrow_mut` failing (`BorrowError`/`BorrowMutError` panics, the
spec's `BorrowConflict`) exactly when Rust's would, and guard drops releasing
the flag.

One evaluation-order fact of Rust is load-bearing and is embedded explicitly:
a basic assignment `place = value` evaluates the assigned VALUE operand first
and the place operand second (Rust reference, "Basic assignments"; this is
also how MIR lowers `=`). Hence in `*($var.borrow_mut()) = Some({$getter});`
the getter runs to completion before `borrow_mut()` is called, so no borrow of
the cell is held while the getter runs.

Caller-supplied getters ("thunks") are embedded as state transformers on the
cell state: a thunk may succeed with a value or fail in the caller's own error
domain, and may itself access the cell (reentrancy) or leave it untouched
(the common case, where a thunk only reads other cells or does I/O outside
this model).
-/

namespace OnDemand

/-- Dynamic borrow state of a `RefCell`: Rust keeps an integer flag
(`0` = unborrowed, `k > 0` = `k` shared readers, negative = writing).
`reading n` stands for `n + 1` outstanding shared borrows. -/
inductive BorrowFlag where
  | unborrowed
  | reading (n : Nat)
  | writing
deriving DecidableEq, Repr

/-- State of one cell `$var : RefCell<Option<T>>`: the dynamic borrow flag and
the `Option<T>` slot (`none` = not yet computed). -/
structure CellState (T : Type) where
  flag : BorrowFlag
  value : Option T
deriving DecidableEq, Repr

/-- `let $var = RefCell::new($default_value)`: unborrowed, slot = the seed. -/
def newCell {T : Type} (seed : Option T) : CellState T :=
  ⟨.unborrowed, seed⟩

/-- `RefCell::borrow()`: fails (panics with `BorrowError`) iff an exclusive
borrow is outstanding; otherwise one more shared borrow is recorded. -/
def tryBorrow {T : Type} (s : CellState T) : Option (CellState T) :=
  match s.flag with
  | .writing => none
  | .unborrowed => some { s with flag := .reading 0 }
  | .reading n => some { s with flag := .reading (n + 1) }

/-- `RefCell::borrow_mut()`: fails (panics with `BorrowMutError`) iff any
borrow is outstanding; otherwise the exclusive borrow is recorded. -/
def tryBorrowMut {T : Type} (s : CellState T) : Option (CellState T) :=
  match s.flag with
  | .unborrowed => some { s with flag := .writing }
  | _ => none

/-- Dropping one shared guard (`Ref`): decrement the reader count.
(On a state with no live `Ref` this is a no-op; such a drop never occurs in a
legal execution.) -/
def dropRef {T : Type} (s : CellState T) : CellState T :=
  match s.flag with
  | .reading 0 => { s with flag := .unborrowed }
  | .reading (n + 1) => { s with flag := .reading n }
  | _ => s

/-- Dropping the exclusive guard (`RefMut`): clear the writer flag. -/
def dropRefMut {T : Type} (s : CellState T) : CellState T :=
  match s.flag with
  | .writing => { s with flag := .unborrowed }
  | _ => s

/-- Writing through a live exclusive guard (`*guard = w`): replaces the value
the guard points into. Only meaningful while `flag = writing`. -/
def guardSet {T : Type} (s : CellState T) (w : T) : CellState T :=
  { s with value := some w }

/-- Errors an access operation can surface:
`borrowConflict` is a `RefCell` borrow panic (the spec's `BorrowConflict`);
`unreachableReached` is the `unreachable!()` arm inside `Ref::map`/`RefMut::map`;
`thunkFailure f` is a failure of the caller-supplied getter, propagating
through the operation unchanged. -/
inductive OpError (F : Type) where
  | borrowConflict
  | unreachableReached
  | thunkFailure (f : F)
deriving DecidableEq, Repr

/-- A caller-supplied getter: runs on the current cell state (it may access
the very cell it is filling) and yields either a value of the slot type or a
failure in the caller's own error domain `F`, together with the cell state it
leaves behind. A thunk that does not touch this cell is `fun s => (.ok v, s)`. -/
def ThunkFn (F T : Type) : Type :=
  CellState T → Except F T × CellState T

/-- A thunk that computes `v` without touching this cell. -/
def pureThunk {F T : Type} (v : T) : ThunkFn F T :=
  fun s => (.ok v, s)

/-- A thunk that fails with `f` without touching this cell. -/
def failThunk {F T : Type} (f : F) : ThunkFn F T :=
  fun s => (.error f, s)

/-- Outcome of a `get`/`get_mut` macro invocation: the result seen by the
caller (on success, the value the returned guard dereferences to), the cell
state after the call (on success it records the live returned guard), and
whether the getter was invoked. -/
structure OpResult (F T : Type) where
  res : Except (OpError F) T
  state : CellState T
  ranThunk : Bool
deriving Repr

/-- Tail of `on_demand_get_$var!()`:
`Ref::map($var.borrow(), |var| if let Some(data) = var.as_ref() { data } else { unreachable!() })`. -/
def getMapStep {F T : Type} (s : CellState T) (ran : Bool) : OpResult F T :=
  match tryBorrow s with
  | none => ⟨.error .borrowConflict, s, ran⟩
  | some sB =>
    match sB.value with
    | some data => ⟨.ok data, sB, ran⟩
    | none => ⟨.error .unreachableReached, sB, ran⟩

/-- Tail of `on_demand_get_$var _mut!()`:
`RefMut::map($var.borrow_mut(), |var| if let Some(data) = var.as_mut() { data } else { unreachable!() })`. -/
def getMutMapStep {F T : Type} (s : CellState T) (ran : Bool) : OpResult F T :=
  match tryBorrowMut s with
  | none => ⟨.error .borrowConflict, s, ran⟩
  | some sW =>
    match sW.value with
    | some data => ⟨.ok data, sW, ran⟩
    | none => ⟨.error .unreachableReached, sW, ran⟩

/-- The shared fill step of both accessors:
`if !is_some { *($var.borrow_mut()) = Some({$getter}); }` run in the state
after the `is_some` statement. A basic assignment evaluates its value operand
first, so `{$getter}` runs before `borrow_mut()`; the temporary `RefMut` is
dropped at the end of the statement. Returns `none` on an error (the error and
the state at that point), `some` with the state after the statement otherwise,
plus whether the getter ran. -/
def fillStep {F T : Type} (thunk : ThunkFn F T) (isSome : Bool) (s : CellState T) :
    (Except (OpError F) Unit × CellState T) × Bool :=
  if isSome then
    ((.ok (), s), false)
  else
    match thunk s with
    | (.error f, sT) => ((.error (.thunkFailure f), sT), true)
    | (.ok v, sT) =>
      match tryBorrowMut sT with
      | none => ((.error .borrowConflict, sT), true)
      | some sW => ((.ok (), dropRefMut (guardSet sW v)), true)

/-- `on_demand_get_$var!()`:
`let is_some = $var.borrow().is_some();` (the temporary `Ref` is dropped at
the end of this statement), then the fill step, then the `Ref::map` tail. -/
def runGet {F T : Type} (thunk : ThunkFn F T) (s : CellState T) : OpResult F T :=
  match tryBorrow s with
  | none => ⟨.error .borrowConflict, s, false⟩
  | some sB =>
    let isSome := sB.value.isSome
    let s0 := dropRef sB
    match fillStep thunk isSome s0 with
    | ((.error e, sE), ran) => ⟨.error e, sE, ran⟩
    | ((.ok _, sF), ran) => getMapStep sF ran

/-- `on_demand_get_$var _mut!()`: identical to `runGet` except that the tail
is `RefMut::map($var.borrow_mut(), ...)`. -/
def runGetMut {F T : Type} (thunk : ThunkFn F T) (s : CellState T) : OpResult F T :=
  match tryBorrow s with
  | none => ⟨.error .borrowConflict, s, false⟩
  | some sB =>
    let isSome := sB.value.isSome
    let s0 := dropRef sB
    match fillStep thunk isSome s0 with
    | ((.error e, sE), ran) => ⟨.error e, sE, ran⟩
    | ((.ok _, sF), ran) => getMutMapStep sF ran

/-- `on_demand_into_$var!()`:
`if let Some(data) = $var.into_inner() { data } else { {$getter} }`.
`RefCell::into_inner` takes the cell by value; Rust's borrow checker therefore
statically requires that no guard borrows it, and the cell is consumed — no
successor cell state exists and no further access operation can be formed.
The dynamic model surfaces a violation of that precondition as
`borrowConflict`. On the `None` branch the getter's result is returned
directly and never stored (there is no slot left to store into). -/
def runIntoInner {F T : Type} (thunk : ThunkFn F T) (s : CellState T) :
    Except (OpError F) T × Bool :=
  match s.flag with
  | .unborrowed =>
    match s.value with
    | some data => (.ok data, false)
    | none =>
      match (thunk s).1 with
      | .ok v => (.ok v, true)
      | .error f => (.error (.thunkFailure f), true)
  | _ => (.error .borrowConflict, false)

/-- One top-level access to a single cell inside a sequence, with a benign
getter (one that computes `v` without touching this cell — the common case,
where a getter reads other cells or does I/O outside this model), or the drop
of a previously returned guard. -/
inductive Op (T : Type) where
  | get (v : T)
  | getMut (v : T)
  | dropShared
  | dropMut

/-- Run one access; report the cell state left behind and whether the access
evaluated its getter. -/
def runOp {T : Type} : Op T → CellState T → CellState T × Bool
  | .get v, s =>
    ((runGet (F := Unit) (pureThunk v) s).state, (runGet (F := Unit) (pureThunk v) s).ranThunk)
  | .getMut v, s =>
    ((runGetMut (F := Unit) (pureThunk v) s).state, (runGetMut (F := Unit) (pureThunk v) s).ranThunk)
  | .dropShared, s => (dropRef s, false)
  | .dropMut, s => (dropRefMut s, false)

/-- Run a sequence of accesses; count how many of them evaluated their getter. -/
def runSeq {T : Type} : List (Op T) → CellState T → CellState T × Nat
  | [], s => (s, 0)
  | op :: ops, s =>
    ((runSeq ops (runOp op s).1).1,
      (if (runOp op s).2 then 1 else 0) + (runSeq ops (runOp op s).1).2)

/-- In every state reachable by the access operations from a fresh cell, an
outstanding borrow implies the slot is filled (guards are only handed out over
a filled slot). -/
def Inv {T : Type} (s : CellState T) : Prop :=
  s.flag ≠ .unborrowed → s.value.isSome

/-- Lifecycle of a cell including its consumption: `living s` while the
`RefCell` variable exists, `consumed` once `into_inner` has moved it out. -/
inductive LifeState (T : Type) where
  | living (s : CellState T)
  | consumed

/-- The per-cell transition relation generated by the access operations.
`intoInner` consumes the cell (its precondition — no outstanding guard — is
enforced statically by Rust, since the guards borrow the `RefCell` that
`into_inner` moves). No constructor has `consumed` as its source: a consumed
cell admits no further access. -/
inductive Step (F : Type) {T : Type} : LifeState T → LifeState T → Prop where
  | get (t : ThunkFn F T) (s : CellState T) :
      Step F (.living s) (.living (runGet t s).state)
  | getMut (t : ThunkFn F T) (s : CellState T) :
      Step F (.living s) (.living (runGetMut t s).state)
  | dropShared (s : CellState T) : Step F (.living s) (.living (dropRef s))
  | dropMut (s : CellState T) : Step F (.living s) (.living (dropRefMut s))
  | intoInner (t : ThunkFn F T) (s : CellState T) (h : s.flag = .unborrowed) :
      Step F (.living s) .consumed

/-- A getter that itself accesses the same cell while that cell is being
filled: it performs the inner access `runGet inner` on the state it is handed,
drops the returned guard at the end of its block, and post-processes the value
it observed with `g`; if the inner access fails, it fails itself. -/
def reentrantThunk {T : Type} (inner : ThunkFn Unit T) (g : T → T) : ThunkFn Unit T :=
  fun s =>
    match (runGet inner s).res with
    | .ok v => (.ok (g v), dropRef (runGet inner s).state)
    | .error _ => (.error (), (runGet inner s).state)

/-! ## Helper lemmas -/

/-- Effect of one access on the borrow/fill invariant: the invariant is
preserved; on a filled cell no getter runs and the cell stays filled; when a
getter ran the cell ends filled; and an access that did not run its getter
cannot fill an empty cell. -/
theorem runOp_inv {T : Type} (op : Op T) (s : CellState T) (hInv : Inv s) :
    Inv (runOp op s).1 ∧
    (s.value.isSome = true → (runOp op s).2 = false ∧ (runOp op s).1.value.isSome = true) ∧
    ((runOp op s).2 = true → (runOp op s).1.value.isSome = true) ∧
    (s.value.isSome = false → (runOp op s).2 = false →
      (runOp op s).1.value.isSome = false) := by
  rcases s with ⟨flag, value⟩
  cases op with
  | get v =>
    cases flag with
    | unborrowed =>
      cases value <;>
        simp [runOp, runGet, tryBorrow, dropRef, fillStep, pureThunk, getMapStep,
          tryBorrowMut, guardSet, dropRefMut, Inv]
    | reading n =>
      cases value with
      | none => simp [Inv] at hInv
      | some w =>
        simp [runOp, runGet, tryBorrow, dropRef, fillStep, getMapStep, Inv]
    | writing =>
      cases value with
      | none => simp [Inv] at hInv
      | some w => simp [runOp, runGet, tryBorrow, Inv]
  | getMut v =>
    cases flag with
    | unborrowed =>
      cases value <;>
        simp [runOp, runGetMut, tryBorrow, dropRef, fillStep, pureThunk, getMutMapStep,
          tryBorrowMut, guardSet, dropRefMut, Inv]
    | reading n =>
      cases value with
      | none => simp [Inv] at hInv
      | some w =>
        simp [runOp, runGetMut, tryBorrow, dropRef, fillStep, getMutMapStep,
          tryBorrowMut, Inv]
    | writing =>
      cases value with
      | none => simp [Inv] at hInv
      | some w => simp [runOp, runGetMut, tryBorrow, Inv]
  | dropShared =>
    cases flag with
    | unborrowed => simp [runOp, dropRef, Inv]
    | writing =>
      cases value with
      | none => simp [Inv] at hInv
      | some w => simp [runOp, dropRef, Inv]
    | reading n =>
      cases value with
      | none => simp [Inv] at hInv
      | some w => cases n <;> simp [runOp, dropRef, Inv]
  | dropMut =>
    cases flag with
    | unborrowed => simp [runOp, dropRefMut, Inv]
    | writing =>
      cases value with
      | none => simp [Inv] at hInv
      | some w => simp [runOp, dropRefMut, Inv]
    | reading n =>
      cases value with
      | none => simp [Inv] at hInv
      | some w => simp [runOp, dropRefMut, Inv]

/-- Over any access sequence from a state satisfying the invariant, the getter
is evaluated at most once, and never if the cell starts filled. -/
theorem runSeq_inv {T : Type} (ops : List (Op T)) (s : CellState T) (hInv : Inv s) :
    (runSeq ops s).2 ≤ 1 ∧ (s.value.isSome = true → (runSeq ops s).2 = 0) := by
  induction ops generalizing s with
  | nil => simp [runSeq]
  | cons op ops ih =>
    obtain ⟨h1, h2, h3, h4⟩ := runOp_inv op s hInv
    obtain ⟨ih1, ih2⟩ := ih (runOp op s).1 h1
    constructor
    · cases hb : (runOp op s).2 with
      | false =>
        simpa [runSeq, hb] using ih1
      | true =>
        simp [runSeq, hb, ih2 (h3 hb)]
    · intro hv
      obtain ⟨hb, hsome⟩ := h2 hv
      simp [runSeq, hb, ih2 hsome]

/-! ## Claims -/

/-- Claim C1: for every cell and every finite sequence of `get` and `get_mut`
calls on it (with benign getters) interleaved with guard drops, the getter for
that cell executes at most once over the cell's lifetime; once the slot has
been filled — by any prior access or by a `Some` seed — no later call
evaluates its getter (with a `Some` seed the count is zero). -/
theorem c1_at_most_once {T : Type} (seed : Option T) (ops : List (Op T)) :
    (runSeq ops (newCell seed)).2 ≤ 1 ∧
    (seed.isSome = true → (runSeq ops (newCell seed)).2 = 0) := by
  have h := runSeq_inv ops (newCell seed) (fun hf => absurd rfl hf)
  simpa [newCell] using h

/-- Witness for C1 at a concrete seeded cell and access sequence. -/
theorem c1_witness :
    (runSeq [Op.get 3, Op.getMut 4, Op.dropMut] (newCell (some (5 : Nat)))).2 = 0 :=
  (c1_at_most_once (some 5) [Op.get 3, Op.getMut 4, Op.dropMut]).2 rfl

/-- Claim C2: on a cell with no conflicting access outstanding, `get` fills an
`Empty` slot by invoking the getter exactly once, stores the result, and
returns a live shared guard over it; on a `Filled` slot it skips the getter
and returns a shared guard over the existing value (the state recorded by a
successful `tryBorrow`). -/
theorem c2_get {F T : Type} (t : ThunkFn F T) :
    (∀ (s : CellState T) (v : T), s.flag = .unborrowed → s.value = none →
        t s = (.ok v, s) →
        runGet t s = ⟨.ok v, ⟨.reading 0, some v⟩, true⟩) ∧
    (∀ (s sB : CellState T) (v : T), s.value = some v → tryBorrow s = some sB →
        runGet t s = ⟨.ok v, sB, false⟩) := by
  constructor
  · rintro ⟨flag, value⟩ v hf hv ht
    simp only at hf hv
    subst hf; subst hv
    simp [runGet, tryBorrow, dropRef, fillStep, ht, getMapStep, tryBorrowMut, guardSet,
      dropRefMut]
  · rintro ⟨flag, value⟩ sB v hv hB
    simp only at hv
    subst hv
    cases flag with
    | unborrowed =>
      simp [tryBorrow] at hB
      subst hB
      simp [runGet, tryBorrow, dropRef, fillStep, getMapStep]
    | reading n =>
      simp [tryBorrow] at hB
      subst hB
      simp [runGet, tryBorrow, dropRef, fillStep, getMapStep]
    | writing =>
      simp [tryBorrow] at hB

/-- Witness for C2: fill on demand from an empty cell; cached value from a
filled cell. -/
theorem c2_witness :
    runGet (pureThunk (F := Unit) 7) (newCell (none : Option Nat)) =
      ⟨.ok 7, ⟨.reading 0, some 7⟩, true⟩ ∧
    runGet (pureThunk (F := Unit) 9) (newCell (some (5 : Nat))) =
      ⟨.ok 5, ⟨.reading 0, some 5⟩, false⟩ :=
  ⟨(c2_get (pureThunk 7)).1 (newCell none) 7 rfl rfl rfl,
   (c2_get (pureThunk 9)).2 (newCell (some 5)) ⟨.reading 0, some 5⟩ 5 rfl rfl⟩

/-- Claim C3: `into_inner` on an `Empty` slot invokes the getter once and
returns its result directly without storing it; on a `Filled` slot it returns
the stored value without invoking the getter. In both cases the cell is
consumed: `runIntoInner` returns no successor cell state, so no further access
operation can be formed on the cell. -/
theorem c3_into {F T : Type} (t : ThunkFn F T) :
    (∀ (s : CellState T) (v : T), s.flag = .unborrowed → s.value = none →
        (t s).1 = .ok v → runIntoInner t s = (.ok v, true)) ∧
    (∀ (s : CellState T) (w : T), s.flag = .unborrowed → s.value = some w →
        runIntoInner t s = (.ok w, false)) := by
  constructor
  · rintro ⟨flag, value⟩ v hf hv ht
    simp only at hf hv
    subst hf; subst hv
    simp [runIntoInner, ht]
  · rintro ⟨flag, value⟩ w hf hv
    simp only at hf hv
    subst hf; subst hv
    simp [runIntoInner]

/-- Witness for C3 on an empty and on a filled cell. -/
theorem c3_witness :
    runIntoInner (pureThunk (F := Unit) 3) (newCell (none : Option Nat)) = (.ok 3, true) ∧
    runIntoInner (pureThunk (F := Unit) 9) (newCell (some (5 : Nat))) = (.ok 5, false) :=
  ⟨(c3_into (pureThunk 3)).1 (newCell none) 3 rfl rfl rfl,
   (c3_into (pureThunk 9)).2 (newCell (some 5)) 5 rfl rfl⟩

/-- Claim C4: a `get` call made while an exclusive guard is live raises
`BorrowConflict` (and changes nothing); a `get_mut` call made while any other
access is live raises `BorrowConflict`; and any number of simultaneously live
shared guards coexist — with `n + 1` shared guards already live on a filled
cell, another `get` succeeds and yields `n + 2`. -/
theorem c4_conflicts {F T : Type} :
    (∀ (t : ThunkFn F T) (s : CellState T), s.flag = .writing →
        runGet t s = ⟨.error .borrowConflict, s, false⟩) ∧
    (∀ (t : ThunkFn F T) (s : CellState T) (v : T), s.flag ≠ .unborrowed →
        t s = (.ok v, s) →
        (runGetMut t s).res = .error .borrowConflict) ∧
    (∀ (t : ThunkFn F T) (v : T) (n : Nat),
        runGet t ⟨.reading n, some v⟩ = ⟨.ok v, ⟨.reading (n + 1), some v⟩, false⟩) := by
  refine ⟨?_, ?_, ?_⟩
  · rintro t ⟨flag, value⟩ hf
    simp only at hf
    subst hf
    simp [runGet, tryBorrow]
  · rintro t ⟨flag, value⟩ v hf ht
    cases flag with
    | unborrowed => simp at hf
    | writing => simp [runGetMut, tryBorrow]
    | reading n =>
      cases value with
      | some w =>
        simp [runGetMut, tryBorrow, dropRef, fillStep, getMutMapStep, tryBorrowMut]
      | none =>
        simp [runGetMut, tryBorrow, dropRef, fillStep, ht, getMutMapStep, tryBorrowMut]
  · intro t v n
    simp [runGet, tryBorrow, dropRef, fillStep, getMapStep]

/-- Witness for C4: `get` against a writer, `get_mut` against a reader, and a
second shared guard next to a live one. -/
theorem c4_witness :
    runGet (pureThunk (F := Unit) 2) ⟨.writing, some (1 : Nat)⟩ =
      ⟨.error .borrowConflict, ⟨.writing, some 1⟩, false⟩ ∧
    (runGetMut (pureThunk (F := Unit) 2) ⟨.reading 0, some (1 : Nat)⟩).res =
      .error .borrowConflict ∧
    runGet (pureThunk (F := Unit) 2) ⟨.reading 1, some (1 : Nat)⟩ =
      ⟨.ok 1, ⟨.reading 2, some 1⟩, false⟩ :=
  ⟨c4_conflicts.1 (pureThunk 2) ⟨.writing, some 1⟩ rfl,
   c4_conflicts.2.1 (pureThunk 2) ⟨.reading 0, some 1⟩ 2 (fun h => nomatch h) rfl,
   c4_conflicts.2.2 (pureThunk 2) 1 1⟩

/-- Counterexample to claim C5 as stated: the claim asserts that a reentrant
access made by the getter during the fill of its own cell raises
`BorrowConflict` because a write lock is already held during the fill. In the
code the assignment `*($var.borrow_mut()) = Some({$getter});` evaluates the
getter before `borrow_mut()`, so the getter runs on the unborrowed, still
empty cell: the inner access performed at that state succeeds with the inner
value instead of raising `BorrowConflict`, and the outer fill then overwrites
the slot (final slot `101`, not the inner access's `1`). -/
theorem c5_counterexample :
    (runGet (pureThunk (F := Unit) 1) (newCell (none : Option Nat))).res ≠
      .error .borrowConflict ∧
    (runGet (pureThunk (F := Unit) 1) (newCell (none : Option Nat))).res = .ok 1 ∧
    runGet (reentrantThunk (pureThunk 1) (fun v => v + 100)) (newCell (none : Option Nat)) =
      ⟨.ok 101, ⟨.reading 0, some 101⟩, true⟩ := by
  refine ⟨?_, rfl, rfl⟩
  intro h
  nomatch h

/-- Claim C5 (amended): if the getter run by `get` or `get_mut` to fill an
empty cell itself accesses the same cell before the fill completes, the inner
access does not raise `BorrowConflict`: the write borrow is acquired only
after the getter finishes (a basic assignment evaluates its value operand
first), so the inner access sees the cell unborrowed and still empty, performs
its own fill and succeeds, and the outer fill — of either accessor — then
overwrites the slot with the outer getter's result. -/
theorem c5_amended {T : Type} (inner : ThunkFn Unit T) (g : T → T) (s : CellState T)
    (v : T) (hf : s.flag = .unborrowed) (hv : s.value = none)
    (hi : inner s = (.ok v, s)) :
    (runGet inner s).res = .ok v ∧
    runGet (reentrantThunk inner g) s = ⟨.ok (g v), ⟨.reading 0, some (g v)⟩, true⟩ ∧
    runGetMut (reentrantThunk inner g) s = ⟨.ok (g v), ⟨.writing, some (g v)⟩, true⟩ := by
  rcases s with ⟨flag, value⟩
  simp only at hf hv
  subst hf; subst hv
  have hrun : runGet inner ⟨.unborrowed, none⟩ =
      ⟨.ok v, ⟨.reading 0, some v⟩, true⟩ := by
    simp [runGet, tryBorrow, dropRef, fillStep, hi, getMapStep, tryBorrowMut, guardSet,
      dropRefMut]
  have hre : reentrantThunk inner g ⟨.unborrowed, none⟩ =
      (.ok (g v), ⟨.unborrowed, some v⟩) := by
    simp [reentrantThunk, hrun, dropRef]
  refine ⟨by rw [hrun], ?_, ?_⟩
  · simp [runGet, tryBorrow, dropRef, fillStep, hre, getMapStep, tryBorrowMut, guardSet,
      dropRefMut]
  · simp [runGetMut, tryBorrow, dropRef, fillStep, hre, getMutMapStep, tryBorrowMut,
      guardSet, dropRefMut]

/-- Witness for the amended C5 at a concrete reentrant getter, through both
accessors. -/
theorem c5_amended_witness :
    (runGet (pureThunk (F := Unit) 1) (newCell (none : Option Nat))).res = .ok 1 ∧
    runGet (reentrantThunk (pureThunk 1) (fun v => v + 100)) (newCell (none : Option Nat)) =
      ⟨.ok 101, ⟨.reading 0, some 101⟩, true⟩ ∧
    runGetMut (reentrantThunk (pureThunk 1) (fun v => v + 100)) (newCell (none : Option Nat)) =
      ⟨.ok 101, ⟨.writing, some 101⟩, true⟩ :=
  c5_amended (pureThunk 1) (fun v => v + 100) (newCell none) 1 rfl rfl rfl

/-- Claim C6: an `into_inner` call on a cell with a live shared or exclusive
guard fails with `BorrowConflict` rather than returning a value (in Rust this
precondition violation is already rejected by the borrow checker, since the
guards borrow the `RefCell` that `into_inner` moves out of scope; the dynamic
model surfaces it as the failure branch). -/
theorem c6_into {F T : Type} (t : ThunkFn F T) (s : CellState T)
    (h : s.flag ≠ .unborrowed) :
    runIntoInner t s = (.error .borrowConflict, false) := by
  rcases s with ⟨flag, value⟩
  cases flag with
  | unborrowed => simp at h
  | reading n => simp [runIntoInner]
  | writing => simp [runIntoInner]

/-- Witness for C6 against a live shared and a live exclusive guard. -/
theorem c6_witness :
    runIntoInner (pureThunk (F := Unit) 7) ⟨.reading 0, some (4 : Nat)⟩ =
      (.error .borrowConflict, false) ∧
    runIntoInner (pureThunk (F := Unit) 7) ⟨.writing, some (4 : Nat)⟩ =
      (.error .borrowConflict, false) :=
  ⟨c6_into (pureThunk 7) ⟨.reading 0, some 4⟩ (fun h => nomatch h),
   c6_into (pureThunk 7) ⟨.writing, some 4⟩ (fun h => nomatch h)⟩

/-- Claim C7: when the getter run by `get` or `get_mut` on an empty cell
fails, the failure propagates through the access unchanged (wrapped only as
the operation's failure outcome) and the cell is left empty and unborrowed, so
a later access can run a getter again and retry the computation. -/
theorem c7_fail_retry {F T : Type} :
    (∀ (t : ThunkFn F T) (s : CellState T) (f : F), s.flag = .unborrowed → s.value = none →
        t s = (.error f, s) →
        runGet t s = ⟨.error (.thunkFailure f), s, true⟩ ∧
        runGetMut t s = ⟨.error (.thunkFailure f), s, true⟩) ∧
    (∀ (t' : ThunkFn F T) (s : CellState T) (v : T), s.flag = .unborrowed → s.value = none →
        t' s = (.ok v, s) →
        (runGet t' s).res = .ok v ∧ (runGet t' s).ranThunk = true) := by
  constructor
  · rintro t ⟨flag, value⟩ f hf hv ht
    simp only at hf hv
    subst hf; subst hv
    constructor
    · simp [runGet, tryBorrow, dropRef, fillStep, ht]
    · simp [runGetMut, tryBorrow, dropRef, fillStep, ht]
  · rintro t' ⟨flag, value⟩ v hf hv ht
    simp only at hf hv
    subst hf; subst hv
    simp [runGet, tryBorrow, dropRef, fillStep, ht, getMapStep, tryBorrowMut, guardSet,
      dropRefMut]

/-- Witness for C7: a failing getter leaves the fresh cell untouched and a
later `get` retries successfully. -/
theorem c7_witness :
    runGet (failThunk (T := Nat) ()) (newCell none) =
      ⟨.error (.thunkFailure ()), newCell none, true⟩ ∧
    runGetMut (failThunk (T := Nat) ()) (newCell none) =
      ⟨.error (.thunkFailure ()), newCell none, true⟩ ∧
    (runGet (pureThunk (F := Unit) 6) (newCell (none : Option Nat))).res = .ok 6 ∧
    (runGet (pureThunk (F := Unit) 6) (newCell (none : Option Nat))).ranThunk = true :=
  ⟨(c7_fail_retry.1 (failThunk ()) (newCell none) () rfl rfl rfl).1,
   (c7_fail_retry.1 (failThunk ()) (newCell none) () rfl rfl rfl).2,
   (c7_fail_retry.2 (pureThunk 6) (newCell none) 6 rfl rfl rfl).1,
   (c7_fail_retry.2 (pureThunk 6) (newCell none) 6 rfl rfl rfl).2⟩

/-- Claim C8: a value mutated through the exclusive guard returned by
`get_mut` persists in the slot after the guard is released: subsequent `get`
and `get_mut` calls return the mutated value and run no getter. -/
theorem c8_mutation_persists {F T : Type} (t t1 t2 : ThunkFn F T) (v w : T) :
    runGetMut t ⟨.unborrowed, some v⟩ = ⟨.ok v, ⟨.writing, some v⟩, false⟩ ∧
    runGet t1 (dropRefMut (guardSet (runGetMut t ⟨.unborrowed, some v⟩).state w)) =
      ⟨.ok w, ⟨.reading 0, some w⟩, false⟩ ∧
    runGetMut t2 (dropRefMut (guardSet (runGetMut t ⟨.unborrowed, some v⟩).state w)) =
      ⟨.ok w, ⟨.writing, some w⟩, false⟩ := by
  refine ⟨?_, ?_, ?_⟩ <;>
    simp [runGet, runGetMut, tryBorrow, dropRef, fillStep, getMapStep, getMutMapStep,
      tryBorrowMut, guardSet, dropRefMut]

/-- Claim C9: once the slot holds `Some v` it never reverts to `None` through
any `get` or `get_mut` call (for arbitrary getters), and the `Consumed` state
reached by `into_inner` is terminal: no transition of the per-cell state
machine leaves it. -/
theorem c9_mono_terminal {F T : Type} :
    (∀ (t : ThunkFn F T) (s : CellState T) (v : T), s.value = some v →
        (runGet t s).state.value = some v ∧ (runGetMut t s).state.value = some v) ∧
    (∀ l : LifeState T, ¬ Step F LifeState.consumed l) := by
  constructor
  · rintro t ⟨flag, value⟩ v hv
    simp only at hv
    subst hv
    cases flag <;>
      simp [runGet, runGetMut, tryBorrow, dropRef, fillStep, getMapStep, getMutMapStep,
        tryBorrowMut]
  · intro l h
    nomatch h

/-- Witness for C9 on a concrete filled cell and the consumed state. -/
theorem c9_witness :
    (runGet (pureThunk (F := Unit) 3) ⟨.unborrowed, some (5 : Nat)⟩).state.value = some 5 ∧
    (runGetMut (pureThunk (F := Unit) 3) ⟨.unborrowed, some (5 : Nat)⟩).state.value = some 5 ∧
    ¬ Step Unit LifeState.consumed (LifeState.living (newCell (none : Option Nat))) :=
  ⟨((c9_mono_terminal (F := Unit)).1 (pureThunk 3) ⟨.unborrowed, some 5⟩ 5 rfl).1,
   ((c9_mono_terminal (F := Unit)).1 (pureThunk 3) ⟨.unborrowed, some 5⟩ 5 rfl).2,
   (c9_mono_terminal (F := Unit)).2 (LifeState.living (newCell none))⟩

/-- Claim C10: in every `get` and `get_mut` call that reaches the guard
construction step, the slot is `Some`, so the `unreachable!()` arm inside
`Ref::map` / `RefMut::map` is never executed — for any entry state and any
getter, including getters that touch the cell. -/
theorem c10_unreach {F T : Type} (t : ThunkFn F T) (s : CellState T) :
    (runGet t s).res ≠ .error .unreachableReached ∧
    (runGetMut t s).res ≠ .error .unreachableReached := by
  rcases s with ⟨flag, value⟩
  cases flag with
  | writing => simp [runGet, runGetMut, tryBorrow]
  | unborrowed =>
    cases value with
    | some w =>
      simp [runGet, runGetMut, tryBorrow, dropRef, fillStep, getMapStep, getMutMapStep,
        tryBorrowMut]
    | none =>
      rcases ht : t ⟨.unborrowed, none⟩ with ⟨r, ⟨tf, tv⟩⟩
      cases r with
      | error f =>
        simp [runGet, runGetMut, tryBorrow, dropRef, fillStep, ht]
      | ok v =>
        cases tf <;>
          simp [runGet, runGetMut, tryBorrow, dropRef, fillStep, ht, getMapStep,
            getMutMapStep, tryBorrowMut, guardSet, dropRefMut]
  | reading n =>
    cases value with
    | some w =>
      simp [runGet, runGetMut, tryBorrow, dropRef, fillStep, getMapStep, getMutMapStep,
        tryBorrowMut]
    | none =>
      rcases ht : t ⟨.reading n, none⟩ with ⟨r, ⟨tf, tv⟩⟩
      cases r with
      | error f =>
        simp [runGet, runGetMut, tryBorrow, dropRef, fillStep, ht]
      | ok v =>
        cases tf <;>
          simp [runGet, runGetMut, tryBorrow, dropRef, fillStep, ht, getMapStep,
            getMutMapStep, tryBorrowMut, guardSet, dropRefMut]

end OnDemand
